import Mathlib

/-!
Verification of the PulsePredict backend core (src/backend/app/main.py):
the sensor-result cache (`get_cached_data`), the decision-dedup cache
(`run_agent_analysis` with `AGENT_CACHE`), the action-execution dispatcher
(`execute_action`) and the deferred inventory task
(`delayed_inventory_update`).

Modelling conventions:
- timestamps are natural numbers counted in minutes, so the TTL comparisons
  `now - timestamp < timedelta(minutes = n)` become `now - ts < n` on `Nat`
  (a negative Python timedelta compares below the positive TTL exactly as the
  truncated `Nat` subtraction yields `0`);
- Python floats are modelled as rationals (all constants in the code are
  exactly representable);
- the MD5 digest of the canonical JSON serialisation is modelled by the
  serialisation itself (the sorted key/value list), i.e. the digest is
  assumed collision-free on these inputs;
- the LLM call plus JSON parsing of lines 310-353 is an opaque generator
  passed as an `Except` value; SMTP and file side effects are opaque
  booleans.
-/

/- Restore normal unfolding for the rational arithmetic primitives so that
concrete runs of the embedded functions can be evaluated by `decide`. -/

attribute [local semireducible] Rat.add Rat.mul Rat.inv Rat.sub Rat.ofScientific

/-- A JSON-style value, as found in the `args` mapping of a tool payload
coming from the client or the LLM. -/
inductive JVal where
  | num (q : Rat)
  | str (s : String)
  | jbool (b : Bool)
  | null
deriving DecidableEq

/-- Python exceptions that can escape the modelled code paths. -/
inductive PyErr where
  | typeError
  | attributeError
deriving DecidableEq

deriving instance DecidableEq for Except

/-- One item of an agent action plan; the dispatcher reads only the
`id` field and writes only the `status` field, so the remaining JSON
fields are not modelled. -/
structure ActionItem where
  id : Int
  status : String
deriving DecidableEq

/-- An agent action plan, the parsed JSON result of the LLM call
(`{"summary": ..., "actions": [...]}`). -/
structure Plan where
  summary : String
  actions : List ActionItem
deriving DecidableEq

/-- The global `AGENT_CACHE` dictionary of main.py lines 91-95: a single
slot holding the last state hash, the last response and its timestamp. -/
structure AgentCache where
  last_hash : Option (List (String × Rat))
  response : Option Plan
  timestamp : Option Nat
deriving DecidableEq

/-- The global `HOSPITAL_STATE` dictionary: an inventory mapping
(association list, in dict insertion order) and the append-only
`system_logs` list. -/
structure OperationalState where
  inventory : List (String × Int)
  system_logs : List String
deriving DecidableEq

/-- `AGENT_TTL = timedelta(minutes=30)` in minutes. -/
def AGENT_TTL : Nat := 30

/-- `DATA_TTL = timedelta(minutes=60)` in minutes. -/
def DATA_TTL : Nat := 60

/-- The environmental record produced by `fetch_real_data` (lines 225-241);
the `timestamp` string field is omitted because nothing downstream reads it. -/
structure Inputs where
  Monthly_Avg_Temp : Rat
  Rainfall_mm : Rat
  Rainfall_Lag_2 : Rat
  Monthly_Avg_Humidity : Rat
  Monthly_Avg_AQI : Rat
  Days_Severe_AQI : Rat
  dengue : Int
  fever : Int
  asthma : Int
  cough : Int
  cold : Int
  loose_motion : Int
  vomiting : Int
  stomach_pain : Int
deriving DecidableEq

/-- Round-half-to-even to an integer, as Python `round` does. -/
def roundHalfEven (x : Rat) : Int :=
  let fl := x.floor
  let frac := x - fl
  if frac < 1/2 then fl
  else if 1/2 < frac then fl + 1
  else if fl % 2 = 0 then fl else fl + 1

/-- Python `round(x, 1)`. -/
def pyRound1 (x : Rat) : Rat :=
  (roundHalfEven (x * 10) : Rat) / 10

/-- Python `min(a, b)`: the first argument wins ties. -/
def pyMin (a b : Rat) : Rat :=
  if a ≤ b then a else b

/-- `calculate_risk_score` of main.py lines 245-264. -/
def calculate_risk_score (category : String) (i : Inputs) : Rat :=
  let base : Rat := 1
  let score :=
    if category = "respiratory" then
      let s := base
      let s := if i.Monthly_Avg_AQI > 150 then s + 3
               else if i.Monthly_Avg_AQI > 100 then s + 3/2 else s
      let s := if i.Monthly_Avg_Temp < 18 then s + 2 else s
      let symptom_load := ((i.cough + i.cold + i.asthma : Int) : Rat) / 3
      if symptom_load > 50 then s + 3 else s
    else if category = "water" then
      let s := base
      let s := if i.Rainfall_mm > 100 then s + 3 else s
      let symptom_load := ((i.loose_motion + i.vomiting + i.stomach_pain : Int) : Rat) / 3
      if symptom_load > 40 then s + 4 else s
    else if category = "vector" then
      let s := base
      let s := if i.Monthly_Avg_Humidity > 70 then s + 2 else s
      let s := if 25 < i.Monthly_Avg_Temp ∧ i.Monthly_Avg_Temp < 34 then s + 2 else s
      let s := if i.Rainfall_mm > 50 then s + 1 else s
      let symptom_load := ((i.dengue + i.fever : Int) : Rat) / 2
      if symptom_load > 60 then s + 4
      else if symptom_load > 30 then s + 2 else s
    else base
  pyMin (pyRound1 score) 10

/-- `get_status` of `run_ml_predictions` (lines 271-274). -/
def get_status (s : Rat) : String :=
  if s ≥ 7 then "🔴 CRITICAL" else if s ≥ 4 then "🟠 WARNING" else "🟢 NORMAL"

/-- The prediction record produced by `run_ml_predictions` (lines 276-280). -/
structure Predictions where
  Vector_Pred : Rat
  Vector_Status : String
  Respiratory_Pred : Rat
  Resp_Status : String
  Water_Pred : Rat
  Water_Status : String
deriving DecidableEq

/-- `run_ml_predictions` of main.py lines 266-280. -/
def run_ml_predictions (i : Inputs) : Predictions :=
  let vec_score := calculate_risk_score "vector" i
  let resp_score := calculate_risk_score "respiratory" i
  let wat_score := calculate_risk_score "water" i
  ⟨vec_score, get_status vec_score,
   resp_score, get_status resp_score,
   wat_score, get_status wat_score⟩

/-- The dictionary literal of main.py lines 288-295, in its construction
order, before `json.dumps(..., sort_keys=True)` sorts the keys. -/
def state_dict (i : Inputs) (p : Predictions) : List (String × Rat) :=
  [("temp", i.Monthly_Avg_Temp),
   ("rain", i.Rainfall_mm),
   ("aqi", i.Monthly_Avg_AQI),
   ("vector_risk", p.Vector_Pred),
   ("resp_risk", p.Respiratory_Pred),
   ("water_risk", p.Water_Pred)]

/-- Lexicographic comparison of strings as lists of characters, by code
point — the order Python uses to compare the keys under
`json.dumps(..., sort_keys=True)`. -/
def keyLt : List Char → List Char → Bool
  | _, [] => false
  | [], _ :: _ => true
  | c :: cs, d :: ds => decide (c < d) || (decide (c = d) && keyLt cs ds)

/-- Total order on serialised key/value pairs: by key (Python string
order), ties broken by value. `json.dumps(..., sort_keys=True)` orders
items by key alone, and because a Python dict never holds duplicate keys
the two orders produce the same serialisation; breaking ties by value
makes the order antisymmetric, which the uniqueness-of-sorting argument
needs. -/
def pairLe (a b : String × Rat) : Prop :=
  keyLt a.1.data b.1.data = true ∨ (a.1 = b.1 ∧ a.2 ≤ b.2)

instance : DecidableRel pairLe :=
  fun a b =>
    inferInstanceAs (Decidable (keyLt a.1.data b.1.data = true ∨ (a.1 = b.1 ∧ a.2 ≤ b.2)))

/-- Model of `json.dumps(d, sort_keys=True)`: serialise the dict items in
sorted key order. -/
def dumps_sort_keys (d : List (String × Rat)) : List (String × Rat) :=
  d.insertionSort pairLe

/-- `current_hash` of main.py line 297: the MD5 of the canonical
serialisation, modelled by the serialisation itself. -/
def canonical_hash (i : Inputs) (p : Predictions) : List (String × Rat) :=
  dumps_sort_keys (state_dict i p)

/-- The early return of main.py lines 285-286 when `GROQ_API_KEY` is unset. -/
def no_key_plan : Plan := ⟨"No API Key.", []⟩

/-- The fallback returned by the `except` branch of lines 361-366. -/
def fallback_plan : Plan := ⟨"System running in manual fallback mode.", []⟩

/-- The cache-hit test of main.py lines 300-303: the stored response is
truthy, the stored hash equals the current hash, a timestamp is present
and it is younger than `AGENT_TTL`. -/
def cacheHit (c : AgentCache) (h : List (String × Rat)) (now : Nat) : Bool :=
  c.response.isSome && decide (c.last_hash = some h) &&
    (match c.timestamp with
     | some ts => decide (now - ts < AGENT_TTL)
     | none => false)

/-- The `try` block of lines 309-366 after a cache miss: invoke the plan
generator (the LLM call and JSON parse, abstracted as `gen`); on success
store hash, response and timestamp in the single cache slot; on failure
return `fallback_plan` and leave the cache untouched.  The returned
boolean records that the generator was invoked. -/
def generateStep (gen : Except String Plan) (h : List (String × Rat))
    (cache : AgentCache) (now : Nat) : Plan × AgentCache × Bool :=
  match gen with
  | Except.ok result => (result, ⟨some h, some result, some now⟩, true)
  | Except.error _ => (fallback_plan, cache, true)

/-- `run_agent_analysis` of main.py lines 284-366.  `hasApiKey` models
`os.getenv("GROQ_API_KEY")` being set; `gen` abstracts the LLM call.
Returns the plan, the cache after the call, and whether the generator
was invoked.  When `cacheHit` holds the response is necessarily present,
so the `getD` default is unreachable. -/
def run_agent_analysis (hasApiKey : Bool) (gen : Except String Plan)
    (i : Inputs) (p : Predictions) (cache : AgentCache) (now : Nat) :
    Plan × AgentCache × Bool :=
  if hasApiKey = false then (no_key_plan, cache, false)
  else
    let h := canonical_hash i p
    if cacheHit cache h now then (cache.response.getD fallback_plan, cache, false)
    else generateStep gen h cache now

/-- The empty `AGENT_CACHE` the process starts with (lines 91-95). -/
def empty_cache : AgentCache := ⟨none, none, none⟩

/-- A sensor reading: the record (JSON object) returned by one of the
data fetchers. The source cache treats it as opaque. -/
abbrev Reading := List (String × Rat)

/-- One entry of the `DATA_CACHE` dictionary (lines 84-89): the stored
data (`none` models both Python `None` and a falsy/absent value) and the
timestamp of the store. -/
structure DataEntry where
  data : Option Reading
  timestamp : Option Nat
deriving DecidableEq

/-- `get_cached_data` of main.py lines 196-207, for one source key.  The
fetcher is abstracted as an `Except` value that may fail (`error`, a
raised exception) or return falsy data (`ok none`).  Returns the result
handed to the caller, the cache entry after the call, and whether the
fetcher was invoked. -/
def get_cached_data (entry : DataEntry) (fetch : Except Unit (Option Reading))
    (now : Nat) : Option Reading × DataEntry × Bool :=
  match entry.data, entry.timestamp with
  | some d, some ts =>
    if now - ts < DATA_TTL then (some d, entry, false)
    else
      match fetch with
      | Except.ok (some d') => (some d', ⟨some d', some now⟩, true)
      | Except.ok none => (none, entry, true)
      | Except.error _ => (none, entry, true)
  | _, _ =>
    match fetch with
    | Except.ok (some d') => (some d', ⟨some d', some now⟩, true)
    | Except.ok none => (none, entry, true)
    | Except.error _ => (none, entry, true)

/-- Number of fetcher invocations recorded by one `get_cached_data` call. -/
def invCount (r : Option Reading × DataEntry × Bool) : Nat :=
  if r.2.2 then 1 else 0

/-- Python `d.get(k, default)` over an association list (first match, as
in a dict, whose keys are unique). -/
def lookupD {β : Type} (l : List (String × β)) (k : String) (d : β) : β :=
  match l with
  | [] => d
  | kv :: rest => if kv.1 = k then kv.2 else lookupD rest k d

/-- Python `d[k] = v` over an association list: replace the first entry
with key `k`, preserving dict order, or append a new entry at the end. -/
def setAssoc {β : Type} (k : String) (v : β) : List (String × β) → List (String × β)
  | [] => [(k, v)]
  | kv :: rest => if kv.1 = k then (k, v) :: rest else kv :: setAssoc k v rest

/-- The keys of an association list, in dict order. -/
def keysOf {β : Type} (l : List (String × β)) : List String :=
  l.map Prod.fst

/-- The status-update loop of `execute_action` lines 418-422: mark the
first action whose `id` equals the request id as EXECUTED. -/
def markExecuted (aid : Int) : List ActionItem → List ActionItem
  | [] => []
  | a :: rest =>
    if a.id = aid then { a with status := "EXECUTED" } :: rest
    else a :: markExecuted aid rest

/-- Apply the status update to the cached response, when one is present. -/
def markCache (aid : Int) (c : AgentCache) : AgentCache :=
  { c with response := Option.map (fun p => { p with actions := markExecuted aid p.actions }) c.response }

/-- Python `float * x` (line 469, `unit_price * qty`): defined for numbers
and booleans, a `TypeError` for anything else. -/
def pyMulFloat (x : Rat) : JVal → Except PyErr Rat
  | JVal.num q => Except.ok (x * q)
  | JVal.jbool b => Except.ok (x * (if b then 1 else 0))
  | _ => Except.error PyErr.typeError

/-- Python `item.replace(...)` (line 136): attribute access on a
non-string raises `AttributeError`. -/
def pyStrVal : JVal → Except PyErr String
  | JVal.str s => Except.ok s
  | _ => Except.error PyErr.attributeError

/-- Helper for `group3`: emit a comma once the per-group counter runs
out, then start a fresh group of three. -/
def group3Aux : Nat → List Char → List Char
  | _, [] => []
  | 0, c :: rest => ',' :: c :: group3Aux 2 rest
  | n + 1, c :: rest => c :: group3Aux n rest

/-- Insert thousands separators into a digit list, three digits at a
time counting from the right; the input and output lists are reversed. -/
def group3 (l : List Char) : List Char :=
  group3Aux 3 l

/-- Python format `{:,.2f}`, used for the purchase-order total. -/
def fmtMoney (q : Rat) : String :=
  let cents : Int := roundHalfEven (q * 100)
  let sign := if cents < 0 then "-" else ""
  let n := cents.natAbs
  let whole := n / 100
  let fracPart := n % 100
  let wholeStr := String.mk ((group3 (toString whole).data.reverse).reverse)
  sign ++ wholeStr ++ "." ++ (if fracPart < 10 then "0" ++ toString fracPart else toString fracPart)

/-- The `function_payload` dict of an action request: a `tool` name (a
non-string or missing tool behaves like an unrecognised one) and an
`args` mapping. -/
structure ToolPayload where
  tool : Option String
  args : List (String × JVal)
deriving DecidableEq

/-- The `ActionRequest` pydantic model of main.py lines 373-377. -/
structure ActionRequest where
  action_id : Int
  title : String
  type : String
  function_payload : Option ToolPayload
deriving DecidableEq

/-- The `{success, message}` response of `execute_action`. -/
structure ExecResult where
  success : Bool
  message : String
deriving DecidableEq

/-- `execute_action` of main.py lines 413-527.

Inputs beyond the request: the current `AGENT_CACHE`, the current
`HOSPITAL_STATE`, the outcome of `send_email_real` (`emailOk`), the
`DEMO_RECIPIENT_EMAIL` value, and the values drawn from `random`
(`unit_price` for `random.uniform(10, 150)`, `po_rand` for
`random.randint(10000, 99999)`) together with the formatted date.

Returns (unless a Python exception escapes, which the `Except` error
models): the response object, the cache after the status update, the
hospital state after the call, and the list of scheduled background
tasks (`delayed_inventory_update` arguments).  The HTML bodies handed to
the notifier and the purchase-order file content are external side
effects with no bearing on the returned values, so they are not
modelled. -/
def execute_action (req : ActionRequest) (cache : AgentCache)
    (st : OperationalState) (emailOk : Bool) (recipient : String)
    (unit_price : Rat) (po_rand : Nat) (date_str : String) :
    Except PyErr (ExecResult × AgentCache × OperationalState × List (JVal × JVal)) :=
  let cache' := markCache req.action_id cache
  let payload := req.function_payload.getD ⟨none, []⟩
  if payload.tool = some "ALERT_EMAIL" then
    let _subject := lookupD payload.args "subject" (JVal.str "Automated Alert")
    let _body_text := lookupD payload.args "body" (JVal.str "Please check the dashboard.")
    Except.ok
      (⟨true, if emailOk then "📧 HTML Alert sent to " ++ recipient
              else "📧 Email Failed (Check Server Logs)"⟩,
       cache', st, [])
  else if payload.tool = some "GENERATE_PO" then
    let item := lookupD payload.args "item" (JVal.str "Medical Supplies")
    let qty := lookupD payload.args "quantity" (JVal.num 100)
    match pyMulFloat unit_price qty with
    | Except.error e => Except.error e
    | Except.ok total_cost =>
      let po_num := "PO-" ++ toString po_rand
      match pyStrVal item with
      | Except.error e => Except.error e
      | Except.ok _ =>
        Except.ok
          (⟨true, "📝 PO #" ++ po_num ++ " Emailed ($" ++ fmtMoney total_cost ++
                  "). Stock updates in 10s."⟩,
           cache', st, [(item, qty)])
  else
    Except.ok
      (⟨true, "Action '" ++ req.title ++ "' logged in system registry."⟩,
       cache', st, [])

/-- The first whitespace-separated token of a Python string split with
`split(" ")`: the characters before the first space. -/
def firstTokenChars : List Char → List Char
  | [] => []
  | c :: rest => if c = ' ' then [] else c :: firstTokenChars rest

/-- Substring containment on character lists (Python `a in b` for
strings). -/
def subListOf (needle : List Char) : List Char → Bool
  | [] => needle.isEmpty
  | c :: rest => needle.isPrefixOf (c :: rest) || subListOf needle rest

/-- The fuzzy match of `delayed_inventory_update` line 180:
`item.split(" ")[0].lower() in key.lower()`. -/
def keyMatches (item key : String) : Bool :=
  subListOf ((firstTokenChars item.data).map Char.toLower) (key.data.map Char.toLower)

/-- The log line appended on a successful restock (line 187); the
formatted wall-clock time is passed in as `nowStr`. -/
def inv_log_entry (nowStr : String) (qty : Int) (key : String) : String :=
  "[" ++ nowStr ++ "] INVENTORY UPDATE: Received " ++ toString qty ++ " " ++ key ++ "."

/-- `delayed_inventory_update` of main.py lines 168-192 (the part after
the 10 second sleep): find the first inventory key fuzzily matching the
item; if found, add the quantity to that key and append a log entry;
otherwise create a new inventory key verbatim (and, in the code as
written, append no log entry). -/
def delayed_inventory_update (item : String) (qty : Int) (nowStr : String)
    (st : OperationalState) : OperationalState :=
  match st.inventory.find? (fun kv => keyMatches item kv.1) with
  | some kv =>
    ⟨setAssoc kv.1 (kv.2 + qty) st.inventory,
     st.system_logs ++ [inv_log_entry nowStr qty kv.1]⟩
  | none => ⟨st.inventory ++ [(item, qty)], st.system_logs⟩

/-- The initial `HOSPITAL_STATE` of main.py lines 72-82. -/
def initial_hospital_state : OperationalState :=
  ⟨[("N95 Masks", 1240),
    ("Oxygen Cylinders (Type D)", 45),
    ("ICU Beds Available", 8),
    ("IV Fluids (RL 500ml)", 120),
    ("Dengue IgG Kits", 50),
    ("Paracetamol Infusion", 85)],
   []⟩

/-- Truthy test for a numeric-enough Python value: `float * x` succeeds
exactly on numbers and booleans. -/
def numericJ : JVal → Bool
  | JVal.num _ => true
  | JVal.jbool _ => true
  | _ => false

/-- Test for a Python string value. -/
def stringJ : JVal → Bool
  | JVal.str _ => true
  | _ => false

/-- A dispatcher call that terminated without an exception, with
`success: true` in its structured result. -/
def isOkSuccess :
    Except PyErr (ExecResult × AgentCache × OperationalState × List (JVal × JVal)) → Bool
  | Except.ok out => out.1.success
  | Except.error _ => false

/-- A concrete environmental reading: the documented fallback constants of
`fetch_real_data` (lines 217-223). -/
def inputs_base : Inputs :=
  { Monthly_Avg_Temp := 65/2
    Rainfall_mm := 241/2
    Rainfall_Lag_2 := 45
    Monthly_Avg_Humidity := 78
    Monthly_Avg_AQI := 165
    Days_Severe_AQI := 3
    dengue := 85
    fever := 60
    asthma := 40
    cough := 30
    cold := 20
    loose_motion := 15
    vomiting := 10
    stomach_pain := 25 }

/-- A concrete plan, standing for a parsed LLM response. -/
def plan0 : Plan := ⟨"Initial strategy", [⟨1, "PENDING"⟩, ⟨2, "PENDING"⟩]⟩

/-- A second, different concrete plan. -/
def plan1 : Plan := ⟨"Refreshed strategy", [⟨1, "PENDING"⟩]⟩

/-- `inputs_base` with only the humidity changed (75 → 80 percent band:
both sides of the pair keep humidity above the 70 threshold, so every
risk score is unchanged). -/
def inputs_humid : Inputs := { inputs_base with Monthly_Avg_Humidity := 80 }

/-- `inputs_base` with a lower AQI, which changes the respiratory risk
score and hence the canonical hash. -/
def inputs_low_aqi : Inputs := { inputs_base with Monthly_Avg_AQI := 90 }

/-- Predictions for `inputs_base`. -/
def base_preds : Predictions := run_ml_predictions inputs_base

/-- Predictions for `inputs_low_aqi`. -/
def low_preds : Predictions := run_ml_predictions inputs_low_aqi

/-- The risk-state dict of `inputs_base` with its first two fields
inserted in the opposite order. -/
def dict_swapped : List (String × Rat) :=
  [("rain", inputs_base.Rainfall_mm),
   ("temp", inputs_base.Monthly_Avg_Temp),
   ("aqi", inputs_base.Monthly_Avg_AQI),
   ("vector_risk", base_preds.Vector_Pred),
   ("resp_risk", base_preds.Respiratory_Pred),
   ("water_risk", base_preds.Water_Pred)]

/-- An agent cache preloaded with a still-fresh entry for `inputs_base`
recorded at time 0. -/
def preloaded_cache : AgentCache :=
  ⟨some (canonical_hash inputs_base base_preds), some plan0, some 0⟩

/-!
### Proof development

Order facts for the serialisation key order, generic lemmas about the
embedded operations, and one theorem (with witness or counterexample
where applicable) per specification claim.
-/

theorem keyLt_irrefl : ∀ l : List Char, keyLt l l = false
  | [] => rfl
  | c :: cs => by simp [keyLt, keyLt_irrefl cs]

theorem keyLt_asymm : ∀ l₁ l₂ : List Char,
    keyLt l₁ l₂ = true → keyLt l₂ l₁ = false
  | _, [], h => by simp [keyLt] at h
  | [], _ :: _, _ => by simp [keyLt]
  | c :: cs, d :: ds, h => by
    simp only [keyLt, Bool.or_eq_true, Bool.and_eq_true, decide_eq_true_eq] at h
    rcases h with hlt | ⟨heq, hrec⟩
    · have h1 : ¬ d < c := asymm hlt
      have h2 : d ≠ c := (ne_of_lt hlt).symm
      simp [keyLt, h1, h2]
    · subst heq
      simp [keyLt, lt_irrefl, keyLt_asymm cs ds hrec]

theorem keyLt_trans : ∀ l₁ l₂ l₃ : List Char,
    keyLt l₁ l₂ = true → keyLt l₂ l₃ = true → keyLt l₁ l₃ = true
  | _, _, [], _, h₂ => by simp [keyLt] at h₂
  | _, [], _ :: _, h₁, _ => by simp [keyLt] at h₁
  | [], _ :: _, _ :: _, _, _ => by simp [keyLt]
  | c :: cs, d :: ds, e :: es, h₁, h₂ => by
    simp only [keyLt, Bool.or_eq_true, Bool.and_eq_true, decide_eq_true_eq] at h₁ h₂ ⊢
    rcases h₁ with hlt₁ | ⟨heq₁, hrec₁⟩
    · rcases h₂ with hlt₂ | ⟨heq₂, hrec₂⟩
      · exact Or.inl (hlt₁.trans hlt₂)
      · exact Or.inl (heq₂ ▸ hlt₁)
    · rcases h₂ with hlt₂ | ⟨heq₂, hrec₂⟩
      · exact Or.inl (heq₁ ▸ hlt₂)
      · exact Or.inr ⟨heq₁.trans heq₂, keyLt_trans cs ds es hrec₁ hrec₂⟩

theorem keyLt_conn : ∀ l₁ l₂ : List Char,
    keyLt l₁ l₂ = false → keyLt l₂ l₁ = false → l₁ = l₂
  | [], [], _, _ => rfl
  | [], _ :: _, h₁, _ => by simp [keyLt] at h₁
  | _ :: _, [], _, h₂ => by simp [keyLt] at h₂
  | c :: cs, d :: ds, h₁, h₂ => by
    simp only [keyLt, Bool.or_eq_false_iff, Bool.and_eq_false_iff,
      decide_eq_false_iff_not, decide_eq_true_eq] at h₁ h₂
    have hcd : c = d := by
      rcases lt_trichotomy c d with h | h | h
      · exact absurd h h₁.1
      · exact h
      · exact absurd h h₂.1
    subst hcd
    rcases h₁.2 with h | h
    · exact absurd rfl h
    · rcases h₂.2 with h' | h'
      · exact absurd rfl h'
      · rw [keyLt_conn cs ds h h']

theorem string_eq_of_data_eq {s t : String} (h : s.data = t.data) : s = t := by
  cases s; cases t; exact congrArg String.mk h

instance : IsTotal (String × Rat) pairLe where
  total a b := by
    cases h1 : keyLt a.1.data b.1.data with
    | true => exact Or.inl (Or.inl h1)
    | false =>
      cases h2 : keyLt b.1.data a.1.data with
      | true => exact Or.inr (Or.inl h2)
      | false =>
        have hk : a.1 = b.1 := string_eq_of_data_eq (keyLt_conn _ _ h1 h2)
        rcases le_total a.2 b.2 with h | h
        · exact Or.inl (Or.inr ⟨hk, h⟩)
        · exact Or.inr (Or.inr ⟨hk.symm, h⟩)

instance : IsTrans (String × Rat) pairLe where
  trans a b c hab hbc := by
    rcases hab with h1 | ⟨h1, h1v⟩ <;> rcases hbc with h2 | ⟨h2, h2v⟩
    · exact Or.inl (keyLt_trans _ _ _ h1 h2)
    · exact Or.inl (h2 ▸ h1)
    · exact Or.inl (h1 ▸ h2)
    · exact Or.inr ⟨h1.trans h2, h1v.trans h2v⟩

instance : IsAntisymm (String × Rat) pairLe where
  antisymm a b hab hba := by
    rcases hab with h1 | ⟨h1, h1v⟩
    · rcases hba with h2 | ⟨h2, h2v⟩
      · simp [keyLt_asymm _ _ h1] at h2
      · rw [h2] at h1
        simp [keyLt_irrefl] at h1
    · rcases hba with h2 | ⟨h2, h2v⟩
      · rw [h1] at h2
        simp [keyLt_irrefl] at h2
      · exact Prod.ext h1 (le_antisymm h1v h2v)

theorem dumps_sort_keys_perm {d₁ d₂ : List (String × Rat)} (h : d₁.Perm d₂) :
    dumps_sort_keys d₁ = dumps_sort_keys d₂ :=
  List.eq_of_perm_of_sorted
    ((List.perm_insertionSort pairLe d₁).trans (h.trans (List.perm_insertionSort pairLe d₂).symm))
    (List.sorted_insertionSort pairLe d₁)
    (List.sorted_insertionSort pairLe d₂)

theorem canonical_hash_fields {i₁ i₂ : Inputs} {p₁ p₂ : Predictions}
    (h : canonical_hash i₁ p₁ = canonical_hash i₂ p₂) :
    i₁.Monthly_Avg_Temp = i₂.Monthly_Avg_Temp ∧ i₁.Rainfall_mm = i₂.Rainfall_mm ∧
    i₁.Monthly_Avg_AQI = i₂.Monthly_Avg_AQI ∧ p₁.Vector_Pred = p₂.Vector_Pred ∧
    p₁.Respiratory_Pred = p₂.Respiratory_Pred ∧ p₁.Water_Pred = p₂.Water_Pred := by
  have h' : List.insertionSort pairLe (state_dict i₁ p₁)
      = List.insertionSort pairLe (state_dict i₂ p₂) := h
  have hp : (state_dict i₁ p₁).Perm (state_dict i₂ p₂) :=
    (List.perm_insertionSort pairLe (state_dict i₁ p₁)).symm.trans
      (h'.symm ▸ List.perm_insertionSort pairLe (state_dict i₂ p₂))
  have ht := hp.subset (show ("temp", i₁.Monthly_Avg_Temp) ∈ state_dict i₁ p₁ by
    simp [state_dict])
  have hr := hp.subset (show ("rain", i₁.Rainfall_mm) ∈ state_dict i₁ p₁ by
    simp [state_dict])
  have ha := hp.subset (show ("aqi", i₁.Monthly_Avg_AQI) ∈ state_dict i₁ p₁ by
    simp [state_dict])
  have hv := hp.subset (show ("vector_risk", p₁.Vector_Pred) ∈ state_dict i₁ p₁ by
    simp [state_dict])
  have hs := hp.subset (show ("resp_risk", p₁.Respiratory_Pred) ∈ state_dict i₁ p₁ by
    simp [state_dict])
  have hw := hp.subset (show ("water_risk", p₁.Water_Pred) ∈ state_dict i₁ p₁ by
    simp [state_dict])
  simp only [state_dict, List.mem_cons, List.not_mem_nil, or_false, Prod.mk.injEq] at ht hr ha hv hs hw
  simp at ht hr ha hv hs hw
  exact ⟨ht, hr, ha, hv, hs, hw⟩

theorem cacheHit_mono {c : AgentCache} {h : List (String × Rat)} {t₁ t₂ : Nat}
    (hle : t₁ ≤ t₂) (hf : cacheHit c h t₁ = false) : cacheHit c h t₂ = false := by
  unfold cacheHit at hf ⊢
  cases hr : c.response <;> cases ht : c.timestamp <;>
    simp [hr, ht, AGENT_TTL] at hf ⊢ <;>
    try exact hf
  intro hhash
  have := hf hhash
  omega

theorem invCount_le_one (r : Option Reading × DataEntry × Bool) : invCount r ≤ 1 := by
  unfold invCount
  split <;> omega

theorem lookupD_setAssoc_self {β : Type} (k : String) (v : β)
    (l : List (String × β)) (d : β) : lookupD (setAssoc k v l) k d = v := by
  induction l with
  | nil => simp [setAssoc, lookupD]
  | cons kv rest ih =>
    by_cases h : kv.1 = k
    · simp [setAssoc, h, lookupD]
    · simp [setAssoc, h, lookupD, ih]

theorem keysOf_setAssoc {β : Type} (k : String) (v : β) (l : List (String × β))
    (hmem : k ∈ keysOf l) : keysOf (setAssoc k v l) = keysOf l := by
  induction l with
  | nil => simp [keysOf] at hmem
  | cons kv rest ih =>
    by_cases h : kv.1 = k
    · simp [setAssoc, h, keysOf]
    · have hmem' : k ∈ keysOf rest := by
        simp only [keysOf, List.map_cons, List.mem_cons] at hmem
        rcases hmem with h' | h'
        · exact absurd h'.symm h
        · exact h'
      have hih := ih hmem'
      simp only [keysOf] at hih
      simp [setAssoc, h, keysOf, hih]

theorem lookupD_eq_of_mem {β : Type} {l : List (String × β)} {k : String} {v : β}
    (hnd : (keysOf l).Nodup) (hmem : (k, v) ∈ l) (d : β) : lookupD l k d = v := by
  induction l with
  | nil => simp at hmem
  | cons kv rest ih =>
    have hnd1 : kv.1 ∉ keysOf rest := (List.nodup_cons.mp hnd).1
    have hnd2 : (keysOf rest).Nodup := (List.nodup_cons.mp hnd).2
    rcases List.mem_cons.mp hmem with h | h
    · rw [← h]
      simp [lookupD]
    · have hk : k ∈ keysOf rest := List.mem_map_of_mem Prod.fst h
      have hne : kv.1 ≠ k := by
        intro he
        exact hnd1 (he ▸ hk)
      simp [lookupD, hne, ih hnd2 h]

/-- Counterexample to claim C1 as stated: two reachable risk states that
differ only in the humidity reading (75 vs 80, an environmental field of
the scan output) produce the *same* canonical hash — humidity is not
among the six hashed fields — and the second scan ten minutes later is
served the cached plan without invoking the generator, i.e. no
regeneration is forced. -/
theorem C1_counterexample :
    inputs_base.Monthly_Avg_Humidity ≠ inputs_humid.Monthly_Avg_Humidity ∧
    inputs_base.Monthly_Avg_Temp = inputs_humid.Monthly_Avg_Temp ∧
    inputs_base.Rainfall_mm = inputs_humid.Rainfall_mm ∧
    inputs_base.Monthly_Avg_AQI = inputs_humid.Monthly_Avg_AQI ∧
    run_ml_predictions inputs_humid = base_preds ∧
    canonical_hash inputs_base base_preds
      = canonical_hash inputs_humid (run_ml_predictions inputs_humid) ∧
    run_agent_analysis true (Except.ok plan1) inputs_humid (run_ml_predictions inputs_humid)
        (run_agent_analysis true (Except.ok plan0) inputs_base base_preds empty_cache 0).2.1 10
      = (plan0,
         (run_agent_analysis true (Except.ok plan0) inputs_base base_preds empty_cache 0).2.1,
         false) := by decide

/-- Claim C1 amended: the hash covers exactly the six serialised fields —
temp, rain, aqi and the three category risk scores.  Two states that
differ in any one of *those* fields hash differently, so after a scan of
the first state the next scan of the second state always misses the
cache and invokes the generator, whatever the elapsed time (in
particular even when the cached entry has not expired).  Fields outside
the six (humidity, lagged rainfall, severe-AQI days, the trend counts)
do not participate. -/
theorem C1_amended (i₁ i₂ : Inputs) (p₁ p₂ : Predictions)
    (hdiff : i₁.Monthly_Avg_Temp ≠ i₂.Monthly_Avg_Temp ∨
             i₁.Rainfall_mm ≠ i₂.Rainfall_mm ∨
             i₁.Monthly_Avg_AQI ≠ i₂.Monthly_Avg_AQI ∨
             p₁.Vector_Pred ≠ p₂.Vector_Pred ∨
             p₁.Respiratory_Pred ≠ p₂.Respiratory_Pred ∨
             p₁.Water_Pred ≠ p₂.Water_Pred)
    (plan : Plan) (gen₂ : Except String Plan) (t₁ t₂ : Nat) :
    canonical_hash i₁ p₁ ≠ canonical_hash i₂ p₂ ∧
    (run_agent_analysis true gen₂ i₂ p₂
        (run_agent_analysis true (Except.ok plan) i₁ p₁ empty_cache t₁).2.1 t₂).2.2 = true := by
  have hneq : canonical_hash i₁ p₁ ≠ canonical_hash i₂ p₂ := by
    intro he
    have hfields := canonical_hash_fields he
    rcases hdiff with h | h | h | h | h | h
    · exact h hfields.1
    · exact h hfields.2.1
    · exact h hfields.2.2.1
    · exact h hfields.2.2.2.1
    · exact h hfields.2.2.2.2.1
    · exact h hfields.2.2.2.2.2
  refine ⟨hneq, ?_⟩
  have h1 : (run_agent_analysis true (Except.ok plan) i₁ p₁ empty_cache t₁).2.1
      = ⟨some (canonical_hash i₁ p₁), some plan, some t₁⟩ := by
    simp [run_agent_analysis, cacheHit, empty_cache, generateStep]
  rw [h1]
  have hch : cacheHit ⟨some (canonical_hash i₁ p₁), some plan, some t₁⟩
      (canonical_hash i₂ p₂) t₂ = false := by
    simp [cacheHit, hneq]
  cases gen₂ <;> simp [run_agent_analysis, hch, generateStep]

/-- Witness for the amended C1: lowering the AQI changes both the aqi
field and the respiratory score, the hash differs, and the second scan
regenerates even though only ten of the thirty TTL minutes have
elapsed. -/
theorem C1_amended_witness :
    canonical_hash inputs_base base_preds ≠ canonical_hash inputs_low_aqi low_preds ∧
    (run_agent_analysis true (Except.ok plan1) inputs_low_aqi low_preds
        (run_agent_analysis true (Except.ok plan0) inputs_base base_preds empty_cache 0).2.1
        10).2.2 = true :=
  C1_amended inputs_base inputs_low_aqi base_preds low_preds
    (Or.inr (Or.inr (Or.inl (by decide)))) plan0 (Except.ok plan1) 0 10

/-- Counterexample to claim C2 as stated: the fallback branch with
`toolCall = None` and category PROTOCOL returns `success: true` and
leaves the operational state — inventory *and* log — completely
unchanged: zero log entries are appended, not exactly one.  (The word
"logged" appears only in the response message.) -/
theorem C2_counterexample :
    execute_action ⟨1, "Activate Protocol", "PROTOCOL", none⟩ empty_cache
        initial_hospital_state true "ops@example.com" 25 11111 "2026-10-12"
      = Except.ok (⟨true, "Action 'Activate Protocol' logged in system registry."⟩,
                   empty_cache, initial_hospital_state, []) ∧
    initial_hospital_state.system_logs.length = 0 ∧
    ¬ initial_hospital_state.system_logs.length
        = initial_hospital_state.system_logs.length + 1 := by
  refine ⟨by decide, rfl, by omega⟩

/-- Claim C2 amended: for every request whose payload carries no
recognised tool (including `toolCall = None`, any category), the
dispatcher returns `success: true` with the registry message, performs
the best-effort status update on the cached plan, appends *no* log entry
and leaves the inventory (indeed the whole operational state) unchanged,
scheduling no background task. -/
theorem C2_amended (req : ActionRequest) (c : AgentCache) (st : OperationalState)
    (emailOk : Bool) (recipient : String) (up : Rat) (pr : Nat) (ds : String)
    (htool : (req.function_payload.getD ⟨none, []⟩).tool ≠ some "ALERT_EMAIL" ∧
             (req.function_payload.getD ⟨none, []⟩).tool ≠ some "GENERATE_PO") :
    execute_action req c st emailOk recipient up pr ds
      = Except.ok (⟨true, "Action '" ++ req.title ++ "' logged in system registry."⟩,
                   markCache req.action_id c, st, []) := by
  simp [execute_action, htool.1, htool.2]

/-- Witness for the amended C2 at a concrete input. -/
theorem C2_amended_witness :
    execute_action ⟨3, "Review Protocols", "PROTOCOL", none⟩ empty_cache
        initial_hospital_state true "ops@example.com" 25 12345 "2026-10-12"
      = Except.ok (⟨true, "Action 'Review Protocols' logged in system registry."⟩,
                   markCache 3 empty_cache, initial_hospital_state, []) :=
  C2_amended ⟨3, "Review Protocols", "PROTOCOL", none⟩ empty_cache initial_hospital_state
    true "ops@example.com" 25 12345 "2026-10-12" ⟨by decide, by decide⟩

/-- Claim C3: the canonical hash of the risk-state dict does not depend on
the order in which its fields were inserted (any permutation serialises
identically), and a second `run_agent_analysis` call with the same field
values within the TTL window returns the plan cached by the first call
without invoking the generator again. -/
theorem C3_dedup (i : Inputs) (p : Predictions) (d' : List (String × Rat))
    (hperm : d'.Perm (state_dict i p)) (plan : Plan) (gen₂ : Except String Plan)
    (t₁ t₂ : Nat) (hTTL : t₂ - t₁ < AGENT_TTL) :
    dumps_sort_keys d' = canonical_hash i p ∧
    run_agent_analysis true gen₂ i p
        (run_agent_analysis true (Except.ok plan) i p empty_cache t₁).2.1 t₂
      = (plan, (run_agent_analysis true (Except.ok plan) i p empty_cache t₁).2.1, false) := by
  constructor
  · exact dumps_sort_keys_perm hperm
  · have h1 : (run_agent_analysis true (Except.ok plan) i p empty_cache t₁).2.1
        = ⟨some (canonical_hash i p), some plan, some t₁⟩ := by
      simp [run_agent_analysis, cacheHit, empty_cache, generateStep]
    rw [h1]
    simp [run_agent_analysis, cacheHit, generateStep, hTTL]

/-- Witness for C3 at a concrete input: the same six field values
inserted in a different order hash identically, and the second call ten
minutes later is served from the cache. -/
theorem C3_dedup_witness :
    dumps_sort_keys dict_swapped = canonical_hash inputs_base base_preds ∧
    run_agent_analysis true (Except.ok plan1) inputs_base base_preds
        (run_agent_analysis true (Except.ok plan0) inputs_base base_preds empty_cache 0).2.1 10
      = (plan0,
         (run_agent_analysis true (Except.ok plan0) inputs_base base_preds empty_cache 0).2.1,
         false) :=
  C3_dedup inputs_base base_preds dict_swapped
    (List.Perm.swap ("temp", inputs_base.Monthly_Avg_Temp) ("rain", inputs_base.Rainfall_mm) _)
    plan0 (Except.ok plan1) 0 10 (by decide)

/-- Claim C4: when the plan generator throws on a cache miss, the call
returns the diagnostic fallback plan (a non-empty object whose summary
is a non-empty diagnostic string, with an empty action list), leaves the
cache exactly as it was, and a later call with the identical risk state
misses again and invokes the generator again. -/
theorem C4_generator_failure (i : Inputs) (p : Predictions) (c : AgentCache)
    (e : String) (gen₂ : Except String Plan) (t₁ t₂ : Nat) (hle : t₁ ≤ t₂)
    (hmiss : (run_agent_analysis true (Except.error e) i p c t₁).2.2 = true) :
    run_agent_analysis true (Except.error e) i p c t₁ = (fallback_plan, c, true) ∧
    fallback_plan.summary ≠ "" ∧ fallback_plan.actions = [] ∧
    (run_agent_analysis true gen₂ i p c t₂).2.2 = true := by
  cases hcb : cacheHit c (canonical_hash i p) t₁ with
  | true =>
    exfalso
    simp [run_agent_analysis, hcb] at hmiss
  | false =>
    have hcb₂ : cacheHit c (canonical_hash i p) t₂ = false := cacheHit_mono hle hcb
    refine ⟨by simp [run_agent_analysis, hcb, generateStep], by decide, rfl, ?_⟩
    cases gen₂ <;> simp [run_agent_analysis, hcb₂, generateStep]

/-- Witness for C4 at a concrete input. -/
theorem C4_generator_failure_witness :
    run_agent_analysis true (Except.error "rate limit") inputs_base base_preds empty_cache 0
      = (fallback_plan, empty_cache, true) ∧
    fallback_plan.summary ≠ "" ∧ fallback_plan.actions = [] ∧
    (run_agent_analysis true (Except.error "rate limit") inputs_base base_preds empty_cache 3).2.2
      = true :=
  C4_generator_failure inputs_base base_preds empty_cache "rate limit"
    (Except.error "rate limit") 0 3 (by decide) (by decide)

/-- Counterexample to claim C5 as stated: a GENERATE_PO action whose
`quantity` argument is a string makes line 469 of main.py evaluate
`float * str`, raising a `TypeError` that nothing in `execute_action`
catches — the exception propagates to the caller instead of a
structured `{success, message}` result. -/
theorem C5_counterexample :
    execute_action
        ⟨2, "Order Supplies", "INVENTORY",
         some ⟨some "GENERATE_PO",
               [("item", JVal.str "N95 Masks"), ("quantity", JVal.str "plenty")]⟩⟩
        empty_cache initial_hospital_state true "ops@example.com" 25 12345 "2026-10-12"
      = Except.error PyErr.typeError := by decide

/-- Claim C5 amended: the dispatcher returns a structured result with
`success: true` on every branch *except* that the GENERATE_PO branch has
no exception guard: it returns a structured result only when the
`quantity` argument is numeric (number or boolean) and the `item`
argument is a string; otherwise a TypeError or AttributeError
propagates.  (The args value is assumed to be a mapping, as the LLM
prompt instructs.) -/
theorem C5_amended (req : ActionRequest) (c : AgentCache) (st : OperationalState)
    (emailOk : Bool) (recipient : String) (up : Rat) (pr : Nat) (ds : String)
    (hsafe : (req.function_payload.getD ⟨none, []⟩).tool = some "GENERATE_PO" →
      numericJ (lookupD (req.function_payload.getD ⟨none, []⟩).args "quantity"
        (JVal.num 100)) = true ∧
      stringJ (lookupD (req.function_payload.getD ⟨none, []⟩).args "item"
        (JVal.str "Medical Supplies")) = true) :
    isOkSuccess (execute_action req c st emailOk recipient up pr ds) = true := by
  by_cases h1 : (req.function_payload.getD ⟨none, []⟩).tool = some "ALERT_EMAIL"
  · simp [execute_action, h1, isOkSuccess]
  · by_cases h2 : (req.function_payload.getD ⟨none, []⟩).tool = some "GENERATE_PO"
    · obtain ⟨hq, hi⟩ := hsafe h2
      cases hqv : lookupD (req.function_payload.getD ⟨none, []⟩).args "quantity"
          (JVal.num 100) with
      | num q =>
        cases hiv : lookupD (req.function_payload.getD ⟨none, []⟩).args "item"
            (JVal.str "Medical Supplies") with
        | str s => simp [execute_action, h1, h2, hqv, hiv, pyMulFloat, pyStrVal, isOkSuccess]
        | num q' => rw [hiv] at hi; simp [stringJ] at hi
        | jbool b' => rw [hiv] at hi; simp [stringJ] at hi
        | null => rw [hiv] at hi; simp [stringJ] at hi
      | jbool b =>
        cases hiv : lookupD (req.function_payload.getD ⟨none, []⟩).args "item"
            (JVal.str "Medical Supplies") with
        | str s => simp [execute_action, h1, h2, hqv, hiv, pyMulFloat, pyStrVal, isOkSuccess]
        | num q' => rw [hiv] at hi; simp [stringJ] at hi
        | jbool b' => rw [hiv] at hi; simp [stringJ] at hi
        | null => rw [hiv] at hi; simp [stringJ] at hi
      | str s => rw [hqv] at hq; simp [numericJ] at hq
      | null => rw [hqv] at hq; simp [numericJ] at hq
    · simp [execute_action, h1, h2, isOkSuccess]

/-- Witness for the amended C5: a well-typed GENERATE_PO action resolves
to a structured success. -/
theorem C5_amended_witness :
    isOkSuccess (execute_action
        ⟨2, "Order Masks", "INVENTORY",
         some ⟨some "GENERATE_PO",
               [("item", JVal.str "N95 Masks"), ("quantity", JVal.num 500)]⟩⟩
        empty_cache initial_hospital_state true "ops@example.com" 25 12345 "2026-10-12")
      = true :=
  C5_amended
    ⟨2, "Order Masks", "INVENTORY",
     some ⟨some "GENERATE_PO",
           [("item", JVal.str "N95 Masks"), ("quantity", JVal.num 500)]⟩⟩
    empty_cache initial_hospital_state true "ops@example.com" 25 12345 "2026-10-12"
    (fun _ => ⟨by decide, by decide⟩)

/-- Counterexample to claim C6 as stated: the cache slot holds a fresh
entry for the base state; a scan of a *different* state (different hash)
whose generation fails leaves the previous entry in place rather than
invalidating it, and a scan of the original state five minutes later is
served that very entry — so the old entry *can* be served again. -/
theorem C6_counterexample :
    canonical_hash inputs_low_aqi low_preds ≠ canonical_hash inputs_base base_preds ∧
    run_agent_analysis true (Except.error "rate limit") inputs_low_aqi low_preds
        preloaded_cache 5
      = (fallback_plan, preloaded_cache, true) ∧
    run_agent_analysis true (Except.ok plan1) inputs_base base_preds preloaded_cache 10
      = (plan0, preloaded_cache, false) := by decide

/-- Claim C6 amended: the decision cache is a single global slot.  On a
cache miss, a *successful* generation replaces the slot wholesale with
the new entry (the previous entry is gone outright, whatever its TTL);
but when generation *fails* the previous entry is retained unchanged,
and it can be served again to a later scan whose hash matches it within
its TTL. -/
theorem C6_amended (i : Inputs) (p : Predictions) (c : AgentCache) (t : Nat)
    (plan : Plan) (e : String)
    (hmiss : cacheHit c (canonical_hash i p) t = false) :
    run_agent_analysis true (Except.ok plan) i p c t
      = (plan, ⟨some (canonical_hash i p), some plan, some t⟩, true) ∧
    run_agent_analysis true (Except.error e) i p c t = (fallback_plan, c, true) := by
  exact ⟨by simp [run_agent_analysis, hmiss, generateStep],
         by simp [run_agent_analysis, hmiss, generateStep]⟩

/-- Witness for the amended C6 at a concrete input. -/
theorem C6_amended_witness :
    run_agent_analysis true (Except.ok plan1) inputs_low_aqi low_preds preloaded_cache 5
      = (plan1, ⟨some (canonical_hash inputs_low_aqi low_preds), some plan1, some 5⟩, true) ∧
    run_agent_analysis true (Except.error "rate limit") inputs_low_aqi low_preds
        preloaded_cache 5
      = (fallback_plan, preloaded_cache, true) :=
  C6_amended inputs_low_aqi low_preds preloaded_cache 5 plan1 "rate limit" (by decide)

/-- Counterexample to claim C7 as stated: a fetcher that returns no data
(as the mock-mode fetchers of main.py lines 55-58 literally do) is not
cached, so two fetch calls one minute apart — well inside the 60 minute
TTL — invoke the fetcher twice. -/
theorem C7_counterexample :
    (get_cached_data ⟨none, none⟩ (Except.ok none) 0).2.2 = true ∧
    (get_cached_data (get_cached_data ⟨none, none⟩ (Except.ok none) 0).2.1
        (Except.ok none) 1).2.2 = true ∧
    (1 : Nat) - 0 < DATA_TTL := by decide

/-- Claim C7 amended: two `get_cached_data` calls on the same source
within the TTL invoke the fetcher at most once, *provided* the first
call's fetch (if one happens) succeeds with truthy data; a failed or
empty fetch is not cached and is retried by the second call. -/
theorem C7_amended (e : DataEntry) (f₂ : Except Unit (Option Reading))
    (d : Reading) (t₁ t₂ : Nat) (hwin : t₂ - t₁ < DATA_TTL) :
    invCount (get_cached_data e (Except.ok (some d)) t₁) +
      invCount (get_cached_data (get_cached_data e (Except.ok (some d)) t₁).2.1 f₂ t₂) ≤ 1 := by
  rcases e with ⟨ed, ets⟩
  cases ed with
  | none =>
    simp [get_cached_data, invCount, hwin]
  | some d₀ =>
    cases ets with
    | none =>
      simp [get_cached_data, invCount, hwin]
    | some ts =>
      by_cases hv : t₁ - ts < DATA_TTL
      · have h1 : get_cached_data ⟨some d₀, some ts⟩ (Except.ok (some d)) t₁
            = (some d₀, ⟨some d₀, some ts⟩, false) := by
          simp [get_cached_data, hv]
        rw [h1]
        simpa [invCount] using
          invCount_le_one (get_cached_data ⟨some d₀, some ts⟩ f₂ t₂)
      · simp [get_cached_data, invCount, hv, hwin]

/-- Witness for the amended C7: empty cache, successful fetch at time 0,
second call at time 10. -/
theorem C7_amended_witness :
    invCount (get_cached_data ⟨none, none⟩ (Except.ok (some [("Monthly_Avg_Temp", 30)])) 0) +
      invCount (get_cached_data
        (get_cached_data ⟨none, none⟩ (Except.ok (some [("Monthly_Avg_Temp", 30)])) 0).2.1
        (Except.ok (some [("Monthly_Avg_Temp", 31)])) 10) ≤ 1 :=
  C7_amended ⟨none, none⟩ (Except.ok (some [("Monthly_Avg_Temp", 31)]))
    [("Monthly_Avg_Temp", 30)] 0 10 (by decide)

/-- Claim C8: the ALERT_EMAIL branch returns `success: true` whether or
not the notifier send succeeds, is never an error, and surfaces a send
failure only through the message text. -/
theorem C8_alert_always_success (aid : Int) (title ty : String)
    (args : List (String × JVal)) (c : AgentCache) (st : OperationalState)
    (emailOk : Bool) (recipient : String) (up : Rat) (pr : Nat) (ds : String) :
    execute_action ⟨aid, title, ty, some ⟨some "ALERT_EMAIL", args⟩⟩ c st
        emailOk recipient up pr ds
      = Except.ok
          (⟨true, if emailOk then "📧 HTML Alert sent to " ++ recipient
                  else "📧 Email Failed (Check Server Logs)"⟩,
           markCache aid c, st, []) := by
  simp [execute_action]

/-- Counterexample to claim C9 as stated: the scheduled item "Mosquito
Nets" matches no existing inventory key, so a new key is created with
the task quantity — but *no* log entry is appended on completion, while
the claim demands one in either case. -/
theorem C9_counterexample :
    (delayed_inventory_update "Mosquito Nets" 500 "10:00:00" initial_hospital_state).inventory
      = initial_hospital_state.inventory ++ [("Mosquito Nets", 500)] ∧
    (delayed_inventory_update "Mosquito Nets" 500 "10:00:00" initial_hospital_state).system_logs
      = [] ∧
    initial_hospital_state.system_logs = [] := by decide

/-- Claim C9 amended: when the first token of the item, lowercased, is a
substring of some existing inventory key (first such key in dict order),
that key's count grows by the task quantity, no key is added or removed,
and exactly one log entry is appended; when no key matches, a new
inventory entry named by the verbatim item is appended with the task
quantity and *no* log entry is appended. -/
theorem C9_amended (item : String) (qty : Int) (nowStr : String)
    (st : OperationalState) (hnd : (keysOf st.inventory).Nodup) :
    (∀ k v, st.inventory.find? (fun kv => keyMatches item kv.1) = some (k, v) →
      keysOf (delayed_inventory_update item qty nowStr st).inventory
        = keysOf st.inventory ∧
      lookupD (delayed_inventory_update item qty nowStr st).inventory k 0
        = lookupD st.inventory k 0 + qty ∧
      (delayed_inventory_update item qty nowStr st).system_logs
        = st.system_logs ++ [inv_log_entry nowStr qty k]) ∧
    (st.inventory.find? (fun kv => keyMatches item kv.1) = none →
      (delayed_inventory_update item qty nowStr st).inventory
        = st.inventory ++ [(item, qty)] ∧
      (delayed_inventory_update item qty nowStr st).system_logs = st.system_logs) := by
  constructor
  · intro k v hfind
    have hmem : (k, v) ∈ st.inventory := List.mem_of_find?_eq_some hfind
    have hkmem : k ∈ keysOf st.inventory := List.mem_map_of_mem Prod.fst hmem
    have hlk : lookupD st.inventory k 0 = v := lookupD_eq_of_mem hnd hmem 0
    simp only [delayed_inventory_update, hfind]
    refine ⟨keysOf_setAssoc k (v + qty) st.inventory hkmem, ?_, ?_⟩
    · rw [lookupD_setAssoc_self, hlk]
    · trivial
  · intro hfind
    simp only [delayed_inventory_update, hfind]
    exact ⟨trivial, trivial⟩

/-- Witness for the amended C9: the "masks" task fuzzily matches the
"N95 Masks" key, whose count grows by 500, with one log entry. -/
theorem C9_amended_witness :
    keysOf (delayed_inventory_update "masks" 500 "10:00:00" initial_hospital_state).inventory
      = keysOf initial_hospital_state.inventory ∧
    lookupD (delayed_inventory_update "masks" 500 "10:00:00" initial_hospital_state).inventory
        "N95 Masks" 0
      = lookupD initial_hospital_state.inventory "N95 Masks" 0 + 500 ∧
    (delayed_inventory_update "masks" 500 "10:00:00" initial_hospital_state).system_logs
      = initial_hospital_state.system_logs ++ [inv_log_entry "10:00:00" 500 "N95 Masks"] :=
  (C9_amended "masks" 500 "10:00:00" initial_hospital_state (by decide)).1
    "N95 Masks" 1240 (by decide)

/-- Claim C10: with `GROQ_API_KEY` unset, `run_agent_analysis` returns the
fixed plan with summary "No API Key." and no actions, never reads or
writes the decision cache (the cache value is returned unchanged, and
a cached still-valid plan is not served), and never invokes the plan
generator. -/
theorem C10_no_api_key (gen : Except String Plan) (i : Inputs) (p : Predictions)
    (c : AgentCache) (now : Nat) :
    run_agent_analysis false gen i p c now = (no_key_plan, c, false) ∧
    no_key_plan = ⟨"No API Key.", []⟩ := by
  exact ⟨by simp [run_agent_analysis], rfl⟩
